import Mathlib

/-!
Shallow embedding of the session/turn lifecycle controller of the
german-speech-trainer-ai repository (the `useGeminiLive` hook together with
the `Turn` / `ConnectionState` data model), and proofs about it.

The controller is single-threaded and callback-driven: all shared mutable
state (React state plus the `useRef` cells) is gathered into one record,
`HookState`, and every callback of the hook becomes a function on that
record.  Asynchronous completions (the silence timeout, the resolution of
`fetchGrammarFeedback`, the per-block `sessionPromise.then` dispatch, a
`disconnect` call) become explicit events.
-/

namespace SpeechTrainer

/-- Interface `Turn` of types.ts: one exchange unit — the finalized user
utterance and its analysis. -/
structure Turn where
  id : String
  userTranscript : String
  modelResponse : String
  isComplete : Bool
  timestamp : Nat
deriving DecidableEq, Repr

instance : Inhabited Turn := ⟨⟨"", "", "", false, 0⟩⟩

/-- Enum `ConnectionState` of types.ts. -/
inductive ConnectionState where
  | DISCONNECTED
  | CONNECTING
  | CONNECTED
  | ERROR
deriving DecidableEq, Repr

/-- Type `Partial Turn` of TypeScript: each field optionally present.  A
field that is present overwrites the corresponding field on spread. -/
structure TurnPatch where
  id? : Option String := none
  userTranscript? : Option String := none
  modelResponse? : Option String := none
  isComplete? : Option Bool := none
  timestamp? : Option Nat := none
deriving DecidableEq, Repr

/-- The JavaScript object spread `\x7b ...t, ...u \x7d`: fields present in
`u` overwrite those of `t`. -/
def spreadTurn (t : Turn) (u : TurnPatch) : Turn :=
  { id := u.id?.getD t.id
    userTranscript := u.userTranscript?.getD t.userTranscript
    modelResponse := u.modelResponse?.getD t.modelResponse
    isComplete := u.isComplete?.getD t.isComplete
    timestamp := u.timestamp?.getD t.timestamp }

/-- Function `updateTurn(id, updates)` of useGeminiLive: `findIndex` of the
first turn whose id matches; if the index is -1 the list is returned
unchanged, otherwise a copy of the list with that single index replaced by
the spread-merge of the old record and `updates`.  (Rendered as structural
recursion: replace the first match in place.) -/
def updateTurn (id : String) (updates : TurnPatch) : List Turn → List Turn
  | [] => []
  | t :: ts =>
      if t.id = id then spreadTurn t updates :: ts
      else t :: updateTurn id updates ts

/-- Function `createTurn(id)` of useGeminiLive: append a fresh record with
empty transcript and response, `isComplete = false` and
`timestamp = Date.now()`. -/
def createTurn (id : String) (now : Nat) (turns : List Turn) : List Turn :=
  turns ++ [{ id := id, userTranscript := "", modelResponse := "",
              isComplete := false, timestamp := now }]

/-- JavaScript `String.prototype.trim`: strip leading and trailing
whitespace.  (Embedded structurally over the character list so that it
evaluates in the kernel; the source calls the built-in `.trim()`.) -/
def jsTrim (s : String) : String :=
  ⟨((s.data.dropWhile Char.isWhitespace).reverse.dropWhile
      Char.isWhitespace).reverse⟩

/-- The only aspect of the AudioContext the controller ever inspects:
whether its state is closed (`audioContextRef.current.state === 'closed'`). -/
structure AudioCtx where
  closed : Bool
deriving DecidableEq, Repr

/-- All mutable state of the `useGeminiLive` hook: the three React state
cells (`status`, `turns`, `audioAnalyser`) and the `useRef` cells.  Opaque
resource handles (stream, processor, source, session, analyser) are
modelled as `Option Nat`: `none` = ref holds null, `some n` = ref holds the
object with identity `n`.  `silenceTimerRef` stores the deadline (in ms) of
the pending one-shot timeout, `none` when no timeout is pending.
`feedbackRequests` is the log of `fetchGrammarFeedback(text, turnId)`
invocations issued by the silence-timer callback (the observable effect of
the fire-and-forget call). -/
structure HookState where
  status : ConnectionState
  turns : List Turn
  audioAnalyser : Option Nat
  audioContextRef : Option AudioCtx
  streamRef : Option Nat
  processorRef : Option Nat
  sourceRef : Option Nat
  activeSessionRef : Option Nat
  currentTurnIdRef : Option String
  currentInputTransRef : String
  silenceTimerRef : Option Nat
  feedbackRequests : List (String × String)
deriving DecidableEq, Repr

/-- Fixed error string written by the catch branch of
`fetchGrammarFeedback`. -/
def feedbackErrorMessage : String := "Error generating feedback. Please try again."

/-- An awaited remote call (`session.close()`, `audioContext.close()`,
`generateContent`) that may reject. -/
def closeCall (fails : Bool) : Except Unit Unit :=
  if fails then Except.error () else Except.ok ()

/-- The pattern `try \x7b await call \x7d catch (error) \x7b console.error(...) \x7d`:
a rejection of the awaited call is caught and logged; execution continues
either way. -/
def tryCatchLog (_ : Except Unit Unit) : Unit := ()

/-- Function `fetchGrammarFeedback(text, turnId)` of useGeminiLive, applied
to the turn list it updates.  `apiKeyPresent` is the truthiness of
`process.env.API_KEY`; `outcome` is the result of the awaited
`generateContent` call — `Except.error ()` when the call rejects (caught by
the catch branch), `Except.ok feedback` when it resolves, where the empty
string stands for a missing or empty `response.text` (both falsy, so the
`if (feedback)` guard skips the update). -/
def fetchGrammarFeedback (apiKeyPresent : Bool) (text : String)
    (turnId : String) (outcome : Except Unit String)
    (turns : List Turn) : List Turn :=
  if !apiKeyPresent || jsTrim text = "" then turns
  else
    match outcome with
    | Except.ok feedback =>
        if feedback = "" then turns
        else updateTurn turnId
          { modelResponse? := some feedback, isComplete? := some true } turns
    | Except.error _ =>
        updateTurn turnId
          { modelResponse? := some feedbackErrorMessage,
            isComplete? := some true } turns

/-- Function `disconnect()` of useGeminiLive.  The numbered steps follow
the source; `sessionCloseFails` and `ctxCloseFails` say whether the two
awaited close calls reject — both are wrapped in try/catch in the source,
so a rejection is swallowed and the following steps still run
(`clearTimeout`, `track.stop()` and the argument-less `node.disconnect()`
do not throw). -/
def disconnect (sessionCloseFails ctxCloseFails : Bool)
    (s : HookState) : HookState :=
  -- 1. clear timers
  let s := { s with silenceTimerRef := none }
  -- 2. close the Gemini session: the awaited close is try/caught, the ref
  --    is nulled afterwards regardless of the outcome
  let s := if s.activeSessionRef.isSome then
      let _ := tryCatchLog (closeCall sessionCloseFails)
      { s with activeSessionRef := none }
    else s
  -- 3. stop the microphone stream
  let s := if s.streamRef.isSome then { s with streamRef := none } else s
  -- 4. disconnect the audio nodes
  let s := if s.processorRef.isSome then { s with processorRef := none } else s
  let s := if s.sourceRef.isSome then { s with sourceRef := none } else s
  -- 5. close the audio context: the awaited close (behind the not-closed
  --    check) is try/caught, the ref is nulled afterwards regardless
  let s := if s.audioContextRef.isSome then
      let _ := tryCatchLog (closeCall ctxCloseFails)
      { s with audioContextRef := none }
    else s
  -- 6. reset internal state
  { s with status := ConnectionState.DISCONNECTED, audioAnalyser := none,
           currentTurnIdRef := none, currentInputTransRef := "" }

/-- The 3000 ms silence threshold passed to `setTimeout`. -/
def silenceDelayMs : Nat := 3000

/-- Body of the silence timeout armed in the onmessage handler: read the
accumulated transcript and the open-turn id at fire time; only when an id
is tracked and the transcript is not whitespace-only, write the transcript
into the turn, issue `fetchGrammarFeedback(finalTranscript, turnId)`, and
reset the two tracking refs — the resets sit inside the guard, so in the
whitespace case nothing at all is written or cleared. -/
def silenceTimerCallback (s : HookState) : HookState :=
  let finalTranscript := s.currentInputTransRef
  match s.currentTurnIdRef with
  | some turnId =>
      if jsTrim finalTranscript = "" then s
      else
        let u : TurnPatch := { userTranscript? := some finalTranscript }
        { s with
          turns := updateTurn turnId u s.turns,
          feedbackRequests := s.feedbackRequests ++ [(finalTranscript, turnId)],
          currentTurnIdRef := none,
          currentInputTransRef := "" }
  | none => s

/-- The onmessage handler of the live session, applied to
`message.serverContent?.inputTranscription?.text` (`none` covers both a
missing field and any message without input transcription; the empty
string is falsy, so `if (inputTxt)` skips it).  `now` is the current time
in ms (`Date.now()`). -/
def onMessage (now : Nat) (inputTxt : Option String) (s : HookState) : HookState :=
  match inputTxt with
  | none => s
  | some txt =>
    if txt = "" then s
    else
      -- 1. clear the existing silence timer (the user is speaking)
      let s := { s with silenceTimerRef := none }
      -- 2. start a new turn if none is active
      let s :=
        match s.currentTurnIdRef with
        | none =>
            let newId := toString now
            { s with currentTurnIdRef := some newId,
                     currentInputTransRef := "",
                     turns := createTurn newId now s.turns }
        | some _ => s
      -- 3. accumulate the transcript
      let s := { s with currentInputTransRef := s.currentInputTransRef ++ txt }
      -- 4. arm the debounce timer (3.0 second silence threshold)
      { s with silenceTimerRef := some (now + silenceDelayMs) }

/-- The asynchronous completions that mutate the hook state.  `silence now`
is the pending silence timeout firing at time `now` (a one-shot timeout
fires exactly at its recorded deadline and only while still pending — a
cancelled or re-armed timeout never runs).  `feedbackOk` / `feedbackErr`
are the resolution / rejection of an in-flight `fetchGrammarFeedback`
call.  `disconnectEv` is a `disconnect()` call. -/
inductive Event where
  | message (now : Nat) (inputTxt : Option String)
  | silence (now : Nat)
  | feedbackOk (turnId : String) (feedback : String)
  | feedbackErr (turnId : String)
  | disconnectEv (sessionCloseFails ctxCloseFails : Bool)
deriving DecidableEq, Repr

/-- One event-loop step of the controller. -/
def step (s : HookState) : Event → HookState
  | Event.message now txt => onMessage now txt s
  | Event.silence now =>
      if s.silenceTimerRef = some now then
        silenceTimerCallback { s with silenceTimerRef := none }
      else s
  | Event.feedbackOk turnId feedback =>
      -- `if (feedback)`: a falsy (empty) response text writes nothing
      if feedback = "" then s
      else
        let u : TurnPatch :=
          { modelResponse? := some feedback, isComplete? := some true }
        { s with turns := updateTurn turnId u s.turns }
  | Event.feedbackErr turnId =>
      let u : TurnPatch :=
        { modelResponse? := some feedbackErrorMessage, isComplete? := some true }
      { s with turns := updateTurn turnId u s.turns }
  | Event.disconnectEv f1 f2 => disconnect f1 f2 s

/-- Run of a sequence of events. -/
def runEvents (evs : List Event) (s : HookState) : HookState :=
  evs.foldl step s

/-- The per-block dispatch callback scheduled by onaudioprocess:
`sessionPromise.then(session => if (activeSessionRef.current === session)
session.sendRealtimeInput(...))`.  `session` is the resolution of the
promise captured when connect ran; the callback runs later, compares it
against the currently active session, and sends only on a match.  It never
writes any state.  Result: the state after the callback together with the
payload sent, if any. -/
def dispatchCallback (session : Nat) (payload : String)
    (s : HookState) : HookState × Option String :=
  if s.activeSessionRef = some session then (s, some payload) else (s, none)

/-- The guard at the top of onaudioprocess: skip the block entirely if the
audio context is gone or closed. -/
def onAudioProcessSchedules (s : HookState) : Bool :=
  match s.audioContextRef with
  | none => false
  | some ctx => !ctx.closed

/-- Whether the body of the async `disconnect()` executes an `await` before
reaching its final status reset: the session close is awaited when a
session is recorded, and the context close when an open (not yet closed)
context is recorded.  All other steps are synchronous. -/
def disconnectSuspends (s : HookState) : Bool :=
  s.activeSessionRef.isSome ||
    (match s.audioContextRef with
     | some ctx => !ctx.closed
     | none => false)

/-- The error path shared by the catch branch of `connect()` and the
onerror callback: `disconnect(); setStatus(ERROR)` with `disconnect` not
awaited.  If the disconnect body suspends at an await, `setStatus(ERROR)`
runs while it is parked and the resumed tail later executes
`setStatus(DISCONNECTED)` as the last status write; only when the body
runs to completion synchronously does the ERROR write land last. -/
def errorTeardown (f1 f2 : Bool) (s : HookState) : HookState :=
  if disconnectSuspends s then disconnect f1 f2 s
  else { disconnect f1 f2 s with status := ConnectionState.ERROR }

/-- The state of the hook right after a successful connect, before any
message has arrived: status CONNECTED, no turns, all resource refs
populated, no open turn, empty accumulation buffer, no pending timer. -/
def connectedState : HookState :=
  { status := ConnectionState.CONNECTED, turns := [],
    audioAnalyser := some 0, audioContextRef := some { closed := false },
    streamRef := some 0, processorRef := some 0, sourceRef := some 0,
    activeSessionRef := some 0, currentTurnIdRef := none,
    currentInputTransRef := "", silenceTimerRef := none,
    feedbackRequests := [] }

/-- A step creates a Turn when it makes the turn sequence longer. -/
def createsTurn (s : HookState) (e : Event) : Prop :=
  s.turns.length < (step s e).turns.length

/-! ### Helper lemmas -/

theorem string_empty_append (s : String) : "" ++ s = s := by
  cases s
  rfl

theorem updateTurn_length (id : String) (u : TurnPatch) (ts : List Turn) :
    (updateTurn id u ts).length = ts.length := by
  induction ts with
  | nil => rfl
  | cons t ts ih => by_cases h : t.id = id <;> simp [updateTurn, h, ih]

theorem updateTurn_getD (id : String) (u : TurnPatch) (ts : List Turn)
    (i : Nat) (h : i < ts.length) :
    (updateTurn id u ts).getD i default = ts.getD i default ∨
    ((updateTurn id u ts).getD i default = spreadTurn (ts.getD i default) u ∧
      (ts.getD i default).id = id) := by
  induction ts generalizing i with
  | nil => simp at h
  | cons t ts ih =>
    by_cases hid : t.id = id
    · cases i with
      | zero => right; simp [updateTurn, hid]
      | succ n => left; simp [updateTurn, hid]
    · cases i with
      | zero => left; simp [updateTurn, hid]
      | succ n =>
        have := ih n (by simpa using Nat.lt_of_succ_lt_succ h)
        simpa [updateTurn, hid] using this

theorem updateTurn_eq_of_not_mem (id : String) (u : TurnPatch) (ts : List Turn)
    (h : ∀ t ∈ ts, t.id ≠ id) : updateTurn id u ts = ts := by
  induction ts with
  | nil => rfl
  | cons t ts ih =>
    have ht : t.id ≠ id := h t (by simp)
    simp [updateTurn, ht]
    exact ih fun t2 h2 => h t2 (by simp [h2])

theorem updateTurn_map_id (id : String) (u : TurnPatch) (ts : List Turn)
    (h : u.id? = none) :
    (updateTurn id u ts).map Turn.id = ts.map Turn.id := by
  induction ts with
  | nil => rfl
  | cons t ts ih =>
    by_cases hid : t.id = id <;> simp [updateTurn, hid, spreadTurn, h, ih]

theorem updateTurn_append (id : String) (u : TurnPatch) (pre post : List Turn)
    (t : Turn) (hpre : ∀ t2 ∈ pre, t2.id ≠ id) (ht : t.id = id) :
    updateTurn id u (pre ++ t :: post) = pre ++ spreadTurn t u :: post := by
  induction pre with
  | nil => simp [updateTurn, ht]
  | cons p pre ih =>
    have hp : p.id ≠ id := hpre p (by simp)
    simp [updateTurn, hp]
    exact ih fun t2 h2 => hpre t2 (by simp [h2])

theorem disconnect_eq (f1 f2 : Bool) (s : HookState) :
    disconnect f1 f2 s =
    { s with
      silenceTimerRef := none, activeSessionRef := none,
      streamRef := none, processorRef := none, sourceRef := none,
      audioContextRef := none, status := ConnectionState.DISCONNECTED,
      audioAnalyser := none, currentTurnIdRef := none,
      currentInputTransRef := "" } := by
  unfold disconnect tryCatchLog
  cases hA : s.activeSessionRef <;> cases hS : s.streamRef <;>
    cases hP : s.processorRef <;> cases hSo : s.sourceRef <;>
    cases hC : s.audioContextRef <;>
    simp [hA, hS, hP, hSo, hC]

theorem onMessage_fresh (now : Nat) (txt : String) (s : HookState)
    (ht : txt ≠ "") (hc : s.currentTurnIdRef = none) :
    onMessage now (some txt) s =
    { s with
      turns := createTurn (toString now) now s.turns,
      currentTurnIdRef := some (toString now),
      currentInputTransRef := txt,
      silenceTimerRef := some (now + silenceDelayMs) } := by
  simp [onMessage, ht, hc, string_empty_append]

theorem onMessage_open (now : Nat) (txt : String) (s : HookState) (tid : String)
    (ht : txt ≠ "") (hc : s.currentTurnIdRef = some tid) :
    onMessage now (some txt) s =
    { s with
      currentInputTransRef := s.currentInputTransRef ++ txt,
      silenceTimerRef := some (now + silenceDelayMs) } := by
  simp [onMessage, ht, hc]

theorem createTurn_length (id : String) (now : Nat) (ts : List Turn) :
    (createTurn id now ts).length = ts.length + 1 := by
  simp [createTurn]

theorem createTurn_getD (id : String) (now : Nat) (ts : List Turn)
    (i : Nat) (h : i < ts.length) :
    (createTurn id now ts).getD i default = ts.getD i default :=
  List.getD_append _ _ _ _ h

/-- Case analysis on how one event-loop step changes the turn sequence:
either it leaves it alone, or it appends one fresh turn (and then the step
required and refilled the open-turn id), or it applies an in-place
`updateTurn` whose patch does not touch `id` or `timestamp`. -/
theorem step_turns_cases (s : HookState) (e : Event) :
    (step s e).turns = s.turns ∨
    (∃ id now, (step s e).turns = createTurn id now s.turns ∧
        s.currentTurnIdRef = none ∧ (step s e).currentTurnIdRef ≠ none) ∨
    (∃ tid u, u.id? = none ∧ u.timestamp? = none ∧
        (step s e).turns = updateTurn tid u s.turns) := by
  cases e with
  | message now txt =>
    cases txt with
    | none => left; rfl
    | some t =>
      by_cases ht : t = ""
      · left
        show (onMessage now (some t) s).turns = s.turns
        simp [onMessage, ht]
      · cases hc : s.currentTurnIdRef with
        | none =>
          right; left
          refine ⟨toString now, now, ?_, rfl, ?_⟩ <;>
            (rw [show step s (Event.message now (some t)) =
                   onMessage now (some t) s from rfl,
                 onMessage_fresh now t s ht hc]
             try simp)
        | some tid =>
          left
          rw [show step s (Event.message now (some t)) =
                onMessage now (some t) s from rfl,
              onMessage_open now t s tid ht hc]
  | silence now =>
    simp only [step]
    by_cases hg : s.silenceTimerRef = some now
    · rw [if_pos hg]
      unfold silenceTimerCallback
      cases hc : s.currentTurnIdRef with
      | none => left; simp [hc]
      | some tid =>
        by_cases htr : jsTrim s.currentInputTransRef = ""
        · left; simp [hc, htr]
        · right; right
          exact ⟨tid, { userTranscript? := some s.currentInputTransRef },
            rfl, rfl, by simp [hc, htr]⟩
    · rw [if_neg hg]; left; rfl
  | feedbackOk tid fb =>
    simp only [step]
    by_cases hf : fb = ""
    · rw [if_pos hf]; left; rfl
    · rw [if_neg hf]
      right; right
      exact ⟨tid, { modelResponse? := some fb, isComplete? := some true },
        rfl, rfl, by simp⟩
  | feedbackErr tid =>
    right; right
    exact ⟨tid, ⟨none, none, some feedbackErrorMessage, some true, none⟩,
      rfl, rfl, by simp [step]⟩
  | disconnectEv f1 f2 =>
    left
    rw [show step s (Event.disconnectEv f1 f2) = disconnect f1 f2 s from rfl,
      disconnect_eq]

theorem step_creation (s : HookState) (e : Event) :
    (step s e).turns.length = s.turns.length ∨
    ((step s e).turns.length = s.turns.length + 1 ∧
      s.currentTurnIdRef = none ∧ (step s e).currentTurnIdRef ≠ none) := by
  rcases step_turns_cases s e with h | ⟨id, now, h, hc, hco⟩ | ⟨tid, u, _, _, h⟩
  · left; rw [h]
  · right; rw [h, createTurn_length]; exact ⟨rfl, hc, hco⟩
  · left; rw [h, updateTurn_length]

theorem updateTurn_preserves_id_timestamp (tid : String) (u : TurnPatch)
    (ts : List Turn) (i : Nat) (h : i < ts.length)
    (hid : u.id? = none) (hts : u.timestamp? = none) :
    ((updateTurn tid u ts).getD i default).id = (ts.getD i default).id ∧
    ((updateTurn tid u ts).getD i default).timestamp =
      (ts.getD i default).timestamp := by
  rcases updateTurn_getD tid u ts i h with heq | ⟨heq, _⟩
  · rw [heq]; exact ⟨rfl, rfl⟩
  · rw [heq]; simp [spreadTurn, hid, hts]

theorem step_preserves_id_timestamp (s : HookState) (e : Event) (i : Nat)
    (h : i < s.turns.length) :
    i < (step s e).turns.length ∧
    ((step s e).turns.getD i default).id = (s.turns.getD i default).id ∧
    ((step s e).turns.getD i default).timestamp =
      (s.turns.getD i default).timestamp := by
  rcases step_turns_cases s e with heq | ⟨id, now, heq, -, -⟩ |
    ⟨tid, u, hid, hts, heq⟩
  · rw [heq]; exact ⟨h, rfl, rfl⟩
  · rw [heq, createTurn_length]
    refine ⟨by omega, ?_, ?_⟩ <;> rw [createTurn_getD _ _ _ _ h]
  · rw [heq, updateTurn_length]
    exact ⟨h, updateTurn_preserves_id_timestamp tid u s.turns i h hid hts⟩

/-! ### C1 -/

/-- C1: at most one Turn is open at any time: a step of the controller
creates a new Turn only when no open-turn id is currently tracked
(`currentTurnIdRef = none`); right after the creating step an open-turn id
is tracked again, so no step can create another Turn until some step has
cleared the tracked id — in particular no two consecutive steps both
create a Turn. -/
theorem at_most_one_open_turn :
    (∀ (s : HookState) (e : Event), createsTurn s e →
        s.currentTurnIdRef = none ∧ (step s e).currentTurnIdRef ≠ none) ∧
    (∀ (s : HookState) (e e' : Event),
        createsTurn s e → ¬ createsTurn (step s e) e') := by
  have h1 : ∀ (s : HookState) (e : Event), createsTurn s e →
      s.currentTurnIdRef = none ∧ (step s e).currentTurnIdRef ≠ none := by
    intro s e hcr
    rcases step_creation s e with heq | ⟨_, h2, h3⟩
    · exact absurd heq (by unfold createsTurn at hcr; omega)
    · exact ⟨h2, h3⟩
  refine ⟨h1, ?_⟩
  intro s e e' hcr hcr'
  exact (h1 s e hcr).2 (h1 (step s e) e' hcr').1

/-- Witness for C1: the very first fragment creates a Turn, at that moment
no open-turn id was tracked, and afterwards one is. -/
theorem at_most_one_open_turn_witness :
    createsTurn connectedState (Event.message 0 (some "Hi")) ∧
    connectedState.currentTurnIdRef = none ∧
    (step connectedState (Event.message 0 (some "Hi"))).currentTurnIdRef ≠ none :=
  have hcr : createsTurn connectedState (Event.message 0 (some "Hi")) := by
    show connectedState.turns.length < _
    decide
  ⟨hcr, (at_most_one_open_turn.1 connectedState (Event.message 0 (some "Hi")) hcr).1,
    (at_most_one_open_turn.1 connectedState (Event.message 0 (some "Hi")) hcr).2⟩

/-! ### C2 -/

theorem onMessage_rearms (now : Nat) (txt : String) (s : HookState)
    (ht : txt ≠ "") :
    (onMessage now (some txt) s).silenceTimerRef = some (now + silenceDelayMs) := by
  cases hc : s.currentTurnIdRef with
  | none => rw [onMessage_fresh now txt s ht hc]
  | some tid => rw [onMessage_open now txt s tid ht hc]

theorem toString_zero : toString (0 : Nat) = "0" := by decide

/-- The first turn record, created by the first fragment at t = 0. -/
def turn0 : Turn :=
  { id := "0", userTranscript := "", modelResponse := "",
    isComplete := false, timestamp := 0 }

/-- The controller state after fragments arriving at t = 0, 1000 and 1500. -/
def c2state (f1 f2 f3 : String) : HookState :=
  step (step (step connectedState (Event.message 0 (some f1)))
    (Event.message 1000 (some f2))) (Event.message 1500 (some f3))

theorem c2state_eq (f1 f2 f3 : String)
    (hf1 : f1 ≠ "") (hf2 : f2 ≠ "") (hf3 : f3 ≠ "") :
    c2state f1 f2 f3 =
    { connectedState with
      turns := [turn0],
      currentTurnIdRef := some "0",
      currentInputTransRef := f1 ++ f2 ++ f3,
      silenceTimerRef := some 4500 } := by
  unfold c2state
  rw [show step connectedState (Event.message 0 (some f1)) =
        onMessage 0 (some f1) connectedState from rfl,
      onMessage_fresh 0 f1 connectedState hf1 rfl]
  rw [show ∀ s : HookState, step s (Event.message 1000 (some f2)) =
        onMessage 1000 (some f2) s from fun _ => rfl,
      onMessage_open 1000 f2 _ (toString 0) hf2 rfl]
  rw [show ∀ s : HookState, step s (Event.message 1500 (some f3)) =
        onMessage 1500 (some f3) s from fun _ => rfl,
      onMessage_open 1500 f3 _ (toString 0) hf3 rfl]
  simp [connectedState, createTurn, turn0, silenceDelayMs, toString_zero]

/-- C2: with fragments at t = 0, 1000 and 1500 ms and the fixed 3000 ms
silence delay, each fragment re-arms the debounce timer to
arrival-time + 3000 (so the pending deadlines are 3000, 4000, 4500); after
the third fragment no turn has a finalized transcript and no analysis
request has been issued; a silence-timer event at any time earlier than
4500 is not the pending timeout and changes nothing; the timeout firing at
t = 4500 finalizes the single turn with transcript f1 ++ f2 ++ f3 (arrival
order), issues the analysis request for it, and clears the open-turn id. -/
theorem debounce_correctness (f1 f2 f3 : String)
    (hf1 : f1 ≠ "") (hf2 : f2 ≠ "") (hf3 : f3 ≠ "")
    (htrim : jsTrim (f1 ++ f2 ++ f3) ≠ "") :
    (step connectedState (Event.message 0 (some f1))).silenceTimerRef =
      some 3000 ∧
    (step (step connectedState (Event.message 0 (some f1)))
      (Event.message 1000 (some f2))).silenceTimerRef = some 4000 ∧
    (c2state f1 f2 f3).silenceTimerRef = some 4500 ∧
    (c2state f1 f2 f3).turns = [turn0] ∧
    (c2state f1 f2 f3).feedbackRequests = [] ∧
    (∀ t, t < 4500 → step (c2state f1 f2 f3) (Event.silence t) =
      c2state f1 f2 f3) ∧
    (step (c2state f1 f2 f3) (Event.silence 4500)).turns =
      [{ turn0 with userTranscript := f1 ++ f2 ++ f3 }] ∧
    (step (c2state f1 f2 f3) (Event.silence 4500)).feedbackRequests =
      [(f1 ++ f2 ++ f3, "0")] ∧
    (step (c2state f1 f2 f3) (Event.silence 4500)).currentTurnIdRef = none := by
  have hc2 := c2state_eq f1 f2 f3 hf1 hf2 hf3
  refine ⟨?_, ?_, ?_, ?_, ?_, ?_, ?_, ?_, ?_⟩
  · rw [show step connectedState (Event.message 0 (some f1)) =
        onMessage 0 (some f1) connectedState from rfl,
      onMessage_rearms 0 f1 connectedState hf1]
    decide
  · rw [show ∀ s : HookState, step s (Event.message 1000 (some f2)) =
        onMessage 1000 (some f2) s from fun _ => rfl,
      onMessage_rearms 1000 f2 _ hf2]
    decide
  · rw [hc2]
  · rw [hc2]
  · rw [hc2]; simp [connectedState]
  · intro t ht
    rw [hc2]
    simp only [step]
    rw [if_neg (by simp; omega)]
  · rw [hc2]
    simp only [step]
    simp [silenceTimerCallback, htrim, updateTurn, spreadTurn, turn0]
  · rw [hc2]
    simp only [step]
    simp [silenceTimerCallback, htrim, connectedState]
  · rw [hc2]
    simp only [step]
    simp [silenceTimerCallback, htrim]

/-- Witness for C2 at the concrete fragments of the spec scenario. -/
theorem debounce_correctness_witness :
    (step (c2state "Ich" " habe" " einen Fehler gemacht")
      (Event.silence 4500)).turns =
      [{ turn0 with userTranscript := "Ich habe einen Fehler gemacht" }] ∧
    (step (c2state "Ich" " habe" " einen Fehler gemacht")
      (Event.silence 4500)).feedbackRequests =
      [("Ich habe einen Fehler gemacht", "0")] ∧
    (step (c2state "Ich" " habe" " einen Fehler gemacht")
      (Event.silence 4500)).currentTurnIdRef = none := by
  have h := debounce_correctness "Ich" " habe" " einen Fehler gemacht"
    (by decide) (by decide) (by decide) (by decide)
  refine ⟨?_, ?_, h.2.2.2.2.2.2.2.2⟩
  · have := h.2.2.2.2.2.2.1
    simpa using this
  · have := h.2.2.2.2.2.2.2.1
    simpa using this

/-! ### C3 -/

/-- State after a single whitespace-only fragment at t = 0 followed by the
silence timeout firing at t = 3000. -/
def c3fired : HookState :=
  step (step connectedState (Event.message 0 (some " "))) (Event.silence 3000)

/-- Counterexample to C3: a whitespace-only fragment opens a turn; when
the silence timer then fires, the guard `if (turnId && finalTranscript.trim())`
fails and the resets inside it are skipped, so the open-turn id and the
accumulation buffer are NOT cleared — the machine does not return to the
no-open-turn state as the claim says it does (though indeed no transcript
is written and no analysis request is issued). -/
theorem whitespace_timer_keeps_turn_open :
    c3fired.currentTurnIdRef = some "0" ∧
    c3fired.currentInputTransRef = " " ∧
    c3fired.turns = [turn0] ∧
    c3fired.feedbackRequests = [] := by decide

/-- C3 amended: when the silence timer fires while the accumulation buffer
is empty or whitespace-only, no transcript is written, no analysis request
is issued, and no turn record changes — but the open-turn id and the
buffer are left exactly as they were (the turn, if any, stays open). -/
theorem silence_whitespace_no_finalize (s : HookState) (now : Nat)
    (h : jsTrim s.currentInputTransRef = "") :
    (step s (Event.silence now)).turns = s.turns ∧
    (step s (Event.silence now)).feedbackRequests = s.feedbackRequests ∧
    (step s (Event.silence now)).currentTurnIdRef = s.currentTurnIdRef ∧
    (step s (Event.silence now)).currentInputTransRef =
      s.currentInputTransRef := by
  simp only [step]
  by_cases hg : s.silenceTimerRef = some now
  · rw [if_pos hg]
    unfold silenceTimerCallback
    cases hc : s.currentTurnIdRef <;> simp [hc, h]
  · rw [if_neg hg]
    exact ⟨rfl, rfl, rfl, rfl⟩

/-- Witness for the amended C3 at a concrete whitespace-buffer state. -/
theorem silence_whitespace_no_finalize_witness :
    jsTrim ({ connectedState with
      turns := [turn0], currentTurnIdRef := some "0",
      currentInputTransRef := " ",
      silenceTimerRef := some 3000 } : HookState).currentInputTransRef = "" ∧
    (step ({ connectedState with
      turns := [turn0], currentTurnIdRef := some "0",
      currentInputTransRef := " ",
      silenceTimerRef := some 3000 } : HookState)
        (Event.silence 3000)).turns = [turn0] ∧
    (step ({ connectedState with
      turns := [turn0], currentTurnIdRef := some "0",
      currentInputTransRef := " ",
      silenceTimerRef := some 3000 } : HookState)
        (Event.silence 3000)).currentTurnIdRef = some "0" :=
  have hstate : jsTrim ({ connectedState with
      turns := [turn0], currentTurnIdRef := some "0",
      currentInputTransRef := " ",
      silenceTimerRef := some 3000 } : HookState).currentInputTransRef = "" := by
    decide
  have happ := silence_whitespace_no_finalize
    ({ connectedState with
      turns := [turn0], currentTurnIdRef := some "0",
      currentInputTransRef := " ",
      silenceTimerRef := some 3000 } : HookState) 3000 hstate
  ⟨hstate, by rw [happ.1], by rw [happ.2.2.1]⟩

/-! ### C4 -/

/-- C4: the per-block dispatch callback never mutates any state; it hands
the payload to the session exactly when the session captured by the
promise is identical to the currently active one; and once `disconnect()`
has completed (active session cleared), a still in-flight callback for the
old session sends nothing and changes nothing. -/
theorem stale_session_guard :
    (∀ (s : HookState) (session : Nat) (payload : String),
        (dispatchCallback session payload s).1 = s ∧
        ((dispatchCallback session payload s).2 = some payload ↔
          s.activeSessionRef = some session)) ∧
    (∀ (s : HookState) (f1 f2 : Bool) (session : Nat) (payload : String),
        dispatchCallback session payload (disconnect f1 f2 s) =
          (disconnect f1 f2 s, none)) := by
  constructor
  · intro s session payload
    by_cases h : s.activeSessionRef = some session <;>
      simp [dispatchCallback, h]
  · intro s f1 f2 session payload
    have h : (disconnect f1 f2 s).activeSessionRef = none := by
      rw [disconnect_eq]
    simp [dispatchCallback, h]

/-! ### C5 -/

/-- C5: `disconnect()` is a total function of the pre-state (no exception
escapes — the two awaited close calls are the only fallible steps and both
are wrapped in try/catch); whatever the outcome of those two calls, every
teardown step runs, leaving the state DISCONNECTED with the timer, session
handle, stream, processor node, source node, audio context, analyser and
open-turn fields all cleared; running it a second time (with any failure
outcome) changes nothing further. -/
theorem disconnect_idempotent_exception_safe :
    (∀ (f1 f2 : Bool) (s : HookState),
        (disconnect f1 f2 s).status = ConnectionState.DISCONNECTED ∧
        (disconnect f1 f2 s).silenceTimerRef = none ∧
        (disconnect f1 f2 s).activeSessionRef = none ∧
        (disconnect f1 f2 s).streamRef = none ∧
        (disconnect f1 f2 s).processorRef = none ∧
        (disconnect f1 f2 s).sourceRef = none ∧
        (disconnect f1 f2 s).audioContextRef = none ∧
        (disconnect f1 f2 s).audioAnalyser = none ∧
        (disconnect f1 f2 s).currentTurnIdRef = none ∧
        (disconnect f1 f2 s).currentInputTransRef = "") ∧
    (∀ (f1 f2 g1 g2 : Bool) (s : HookState),
        disconnect g1 g2 (disconnect f1 f2 s) = disconnect f1 f2 s) ∧
    (∀ (f1 f2 : Bool) (s : HookState),
        disconnect f1 f2 s = disconnect false false s) := by
  refine ⟨?_, ?_, ?_⟩ <;> intros <;> simp [disconnect_eq]

/-! ### C6 -/

/-- State reached inside connect() when getUserMedia rejects: status has
been set to CONNECTING and the audio context has been created and stored,
but no stream, nodes or session exist yet.  This is the state the catch
branch runs in. -/
def getUserMediaFailureState : HookState :=
  { status := ConnectionState.CONNECTING, turns := [], audioAnalyser := none,
    audioContextRef := some { closed := false }, streamRef := none,
    processorRef := none, sourceRef := none, activeSessionRef := none,
    currentTurnIdRef := none, currentInputTransRef := "",
    silenceTimerRef := none, feedbackRequests := [] }

/-- C6 is a code bug: the catch branch (and onerror) runs
`disconnect(); setStatus(ERROR)` without awaiting the async disconnect.
Whenever the disconnect body reaches one of its awaits — here the
audio-context close — the ERROR write happens while it is parked, and the
resumed tail then writes DISCONNECTED as the last status update.  So after
the teardown has fully completed the Connection State is DISCONNECTED,
not ERROR as the claim (and the code's own final `setStatus(ERROR)`)
intends. -/
theorem error_teardown_ends_disconnected :
    disconnectSuspends getUserMediaFailureState = true ∧
    (errorTeardown false false getUserMediaFailureState).status =
      ConnectionState.DISCONNECTED ∧
    ConnectionState.DISCONNECTED ≠ ConnectionState.ERROR := by decide

/-! ### C7 -/

/-- An existing, not yet completed turn record used in the C7 scenarios. -/
def c7turn : Turn :=
  { id := "t1", userTranscript := "", modelResponse := "",
    isComplete := false, timestamp := 5 }

/-- Counterexample to C7: a call with non-whitespace text and an existing
turn id whose remote call RESOLVES but with an empty (missing)
`response.text` — a malformed response that does not throw.  The
`if (feedback)` guard then skips the update entirely: no error string is
written and `isComplete` stays false, while the claim promises that every
non-thrown outcome completes the turn. -/
theorem empty_feedback_success_no_completion :
    jsTrim "Hallo" ≠ "" ∧
    fetchGrammarFeedback true "Hallo" "t1" (Except.ok "") [c7turn] = [c7turn] ∧
    c7turn.isComplete = false := by decide

/-- C7 amended: with non-whitespace text and the addressed turn present, a
rejected call writes the fixed error string and completes the turn, a
resolved call with non-empty feedback writes that feedback and completes
the turn, but a resolved call with empty feedback leaves the sequence
completely unchanged (the turn stays incomplete); whitespace-only text is
a no-op for every outcome. -/
theorem analyze_outcome (text tid fb : String) (pre post : List Turn)
    (t : Turn) (hpre : ∀ t2 ∈ pre, t2.id ≠ tid) (ht : t.id = tid)
    (htext : jsTrim text ≠ "") :
    fetchGrammarFeedback true text tid (Except.error ()) (pre ++ t :: post) =
      pre ++ { t with modelResponse := feedbackErrorMessage,
                      isComplete := true } :: post ∧
    (fb ≠ "" →
      fetchGrammarFeedback true text tid (Except.ok fb) (pre ++ t :: post) =
        pre ++ { t with modelResponse := fb, isComplete := true } :: post) ∧
    fetchGrammarFeedback true text tid (Except.ok "") (pre ++ t :: post) =
      pre ++ t :: post ∧
    (∀ (text2 : String) (outcome : Except Unit String) (ts : List Turn),
        jsTrim text2 = "" →
        fetchGrammarFeedback true text2 tid outcome ts = ts) := by
  refine ⟨?_, ?_, ?_, ?_⟩
  · rw [show fetchGrammarFeedback true text tid (Except.error ())
        (pre ++ t :: post) =
        updateTurn tid ⟨none, none, some feedbackErrorMessage, some true, none⟩
          (pre ++ t :: post) from by simp [fetchGrammarFeedback, htext]]
    rw [updateTurn_append tid _ pre post t hpre ht]
    simp [spreadTurn]
  · intro hfb
    rw [show fetchGrammarFeedback true text tid (Except.ok fb)
        (pre ++ t :: post) =
        updateTurn tid ⟨none, none, some fb, some true, none⟩
          (pre ++ t :: post) from by simp [fetchGrammarFeedback, htext, hfb]]
    rw [updateTurn_append tid _ pre post t hpre ht]
    simp [spreadTurn]
  · simp [fetchGrammarFeedback, htext]
  · intro text2 outcome ts h2
    simp [fetchGrammarFeedback, h2]

/-- Turn record used in the C7 witness. -/
def wTurn : Turn :=
  { id := "w1", userTranscript := "so", modelResponse := "",
    isComplete := false, timestamp := 9 }

/-- Witness for the amended C7 at concrete inputs. -/
theorem analyze_outcome_witness :
    fetchGrammarFeedback true "Hallo" "w1" (Except.error ())
        ([] ++ wTurn :: []) =
      [] ++ { wTurn with modelResponse := feedbackErrorMessage,
                         isComplete := true } :: [] ∧
    fetchGrammarFeedback true "Hallo" "w1" (Except.ok "Gut")
        ([] ++ wTurn :: []) =
      [] ++ { wTurn with modelResponse := "Gut", isComplete := true } :: [] ∧
    fetchGrammarFeedback true "Hallo" "w1" (Except.ok "")
        ([] ++ wTurn :: []) = [] ++ wTurn :: [] :=
  have h := analyze_outcome "Hallo" "w1" "Gut" [] [] wTurn
    (by simp) (by decide) (by decide)
  ⟨h.1, h.2.1 (by decide), h.2.2.1⟩

/-! ### C8 -/

/-- C8: along any sequence of controller events, every already existing
turn keeps its `id` and `timestamp` (stated positionally: the record at
index i keeps both fields); and any completion of the Feedback Dispatcher
(resolution or rejection, in any order) preserves the length of the
sequence, preserves `id`, `userTranscript` and `timestamp` of every turn,
and leaves every turn whose id differs from the original `turnId`
completely unchanged — only `modelResponse` / `isComplete` of the
addressed turn can change. -/
theorem turn_identity_stability :
    (∀ (evs : List Event) (s : HookState) (i : Nat), i < s.turns.length →
        i < (runEvents evs s).turns.length ∧
        ((runEvents evs s).turns.getD i default).id =
          (s.turns.getD i default).id ∧
        ((runEvents evs s).turns.getD i default).timestamp =
          (s.turns.getD i default).timestamp) ∧
    (∀ (tid fb : String) (s : HookState) (e : Event),
        (e = Event.feedbackOk tid fb ∨ e = Event.feedbackErr tid) →
        (step s e).turns.length = s.turns.length ∧
        ∀ i, i < s.turns.length →
          ((step s e).turns.getD i default).id =
            (s.turns.getD i default).id ∧
          ((step s e).turns.getD i default).userTranscript =
            (s.turns.getD i default).userTranscript ∧
          ((step s e).turns.getD i default).timestamp =
            (s.turns.getD i default).timestamp ∧
          ((s.turns.getD i default).id ≠ tid →
            (step s e).turns.getD i default = s.turns.getD i default)) := by
  constructor
  · intro evs
    induction evs with
    | nil => intro s i h; exact ⟨h, rfl, rfl⟩
    | cons e evs ih =>
      intro s i h
      have h1 := step_preserves_id_timestamp s e i h
      have h2 := ih (step s e) i h1.1
      exact ⟨h2.1, h2.2.1.trans h1.2.1, h2.2.2.trans h1.2.2⟩
  · intro tid fb s e he
    have hturns : (step s e).turns = s.turns ∨
        ∃ u : TurnPatch, u.id? = none ∧ u.userTranscript? = none ∧
          u.timestamp? = none ∧ (step s e).turns = updateTurn tid u s.turns := by
      rcases he with rfl | rfl
      · by_cases hf : fb = ""
        · left; simp [step, hf]
        · right
          exact ⟨⟨none, none, some fb, some true, none⟩, rfl, rfl, rfl,
            by simp [step, hf]⟩
      · right
        exact ⟨⟨none, none, some feedbackErrorMessage, some true, none⟩,
          rfl, rfl, rfl, by simp [step]⟩
    rcases hturns with heq | ⟨u, hid, hutr, hts, heq⟩
    · rw [heq]
      exact ⟨rfl, fun i hi => ⟨rfl, rfl, rfl, fun _ => rfl⟩⟩
    · rw [heq]
      refine ⟨updateTurn_length _ _ _, fun i hi => ?_⟩
      rcases updateTurn_getD tid u s.turns i hi with hg | ⟨hg, hgid⟩
      · rw [hg]; exact ⟨rfl, rfl, rfl, fun _ => rfl⟩
      · rw [hg]
        refine ⟨?_, ?_, ?_, fun hne => absurd hgid hne⟩ <;>
          simp [spreadTurn, hid, hutr, hts]

/-- Controller state with one existing turn, used in the C8 witness. -/
def wState : HookState :=
  { connectedState with
    turns := [{ id := "7", userTranscript := "x", modelResponse := "",
                isComplete := false, timestamp := 3 }] }

/-- Witness for C8: a late feedback rejection keyed to an id that does not
match the stored turn leaves that turn (and its id / timestamp) untouched. -/
theorem turn_identity_stability_witness :
    (0 < (runEvents [Event.feedbackErr "9"] wState).turns.length ∧
      ((runEvents [Event.feedbackErr "9"] wState).turns.getD 0 default).id =
        (wState.turns.getD 0 default).id ∧
      ((runEvents [Event.feedbackErr "9"] wState).turns.getD 0
          default).timestamp = (wState.turns.getD 0 default).timestamp) ∧
    (step wState (Event.feedbackErr "9")).turns.length =
      wState.turns.length ∧
    (step wState (Event.feedbackErr "9")).turns.getD 0 default =
      wState.turns.getD 0 default :=
  have h1 := turn_identity_stability.1 [Event.feedbackErr "9"] wState 0
    (by decide)
  have h2 := turn_identity_stability.2 "9" "" wState (Event.feedbackErr "9")
    (Or.inr rfl)
  ⟨h1, h2.1, (h2.2 0 (by decide)).2.2.2 (by decide)⟩

/-! ### C9 -/

/-- Turn record used in the C9 counterexample. -/
def c9turn : Turn :=
  { id := "a", userTranscript := "u", modelResponse := "m",
    isComplete := false, timestamp := 1 }

/-- Counterexample to C9: `updates` has TypeScript type `Partial Turn`, so
it may contain an `id` field, and the spread then renames the matched
turn — the ids of the sequence are not preserved by every update. -/
theorem updateTurn_can_rename :
    (updateTurn "a" ⟨some "b", none, none, none, none⟩ [c9turn]).map Turn.id
      = ["b"] ∧
    ("b" : String) ≠ "a" ∧
    (updateTurn "a" ⟨some "b", none, none, none, none⟩ [c9turn]).map Turn.id
      ≠ [c9turn].map Turn.id := by decide

/-- C9 amended: `updateTurn` always preserves the length and the positions
of the sequence (it never inserts, deletes, or reorders: every position
holds either the old record or its in-place merge with the patch), returns
the sequence completely unchanged when no turn carries the given id, and
preserves the ids of all elements whenever the patch does not itself set
the `id` field (as at every call site of the program). -/
theorem updateTurn_frame (id : String) (u : TurnPatch) (ts : List Turn) :
    (updateTurn id u ts).length = ts.length ∧
    ((∀ t ∈ ts, t.id ≠ id) → updateTurn id u ts = ts) ∧
    (u.id? = none → (updateTurn id u ts).map Turn.id = ts.map Turn.id) ∧
    (∀ i, i < ts.length →
      (updateTurn id u ts).getD i default = ts.getD i default ∨
      ((updateTurn id u ts).getD i default =
          spreadTurn (ts.getD i default) u ∧
        (ts.getD i default).id = id)) :=
  ⟨updateTurn_length id u ts, updateTurn_eq_of_not_mem id u ts,
   updateTurn_map_id id u ts, fun i h => updateTurn_getD id u ts i h⟩

/-- Turn list used in the C9 witness. -/
def w9 : List Turn :=
  [{ id := "p", userTranscript := "", modelResponse := "",
     isComplete := false, timestamp := 2 }]

/-- Witness for the amended C9: an update keyed to an absent id is a
complete no-op. -/
theorem updateTurn_frame_witness :
    (updateTurn "q" ⟨none, none, some "fb", some true, none⟩ w9).length =
      w9.length ∧
    updateTurn "q" ⟨none, none, some "fb", some true, none⟩ w9 = w9 ∧
    (updateTurn "q" ⟨none, none, some "fb", some true, none⟩ w9).map Turn.id
      = w9.map Turn.id ∧
    ((updateTurn "q" ⟨none, none, some "fb", some true, none⟩ w9).getD 0
        default = w9.getD 0 default ∨
      ((updateTurn "q" ⟨none, none, some "fb", some true, none⟩ w9).getD 0
          default =
        spreadTurn (w9.getD 0 default)
          ⟨none, none, some "fb", some true, none⟩ ∧
        (w9.getD 0 default).id = "q")) :=
  have h := updateTurn_frame "q" ⟨none, none, some "fb", some true, none⟩ w9
  ⟨h.1, h.2.1 (by decide), h.2.2.1 rfl, h.2.2.2 0 (by decide)⟩

/-! ### C10 -/

/-- C10: `disconnect()` never touches the turn sequence (nor the log of
issued analysis requests): the whole teardown only clears the timer, the
resource references, the analyser, the open-turn tracking fields, and
resets the status — every turn record present before, including one whose
unfinalized buffer is discarded, is still present and unchanged after. -/
theorem disconnect_preserves_turn_history (f1 f2 : Bool) (s : HookState) :
    (disconnect f1 f2 s).turns = s.turns ∧
    (disconnect f1 f2 s).feedbackRequests = s.feedbackRequests ∧
    disconnect f1 f2 s =
      { s with
        silenceTimerRef := none, activeSessionRef := none,
        streamRef := none, processorRef := none, sourceRef := none,
        audioContextRef := none, status := ConnectionState.DISCONNECTED,
        audioAnalyser := none, currentTurnIdRef := none,
        currentInputTransRef := "" } := by
  refine ⟨?_, ?_, disconnect_eq f1 f2 s⟩ <;> rw [disconnect_eq]

end SpeechTrainer
